import Mathlib

/-!
Shallow embedding of the HealthKart influencer dashboard (src/dashboard.py).

Tables are lists of typed rows.  Column presence, which the script tests
with checks such as `"revenue" in tracking.columns`, is modelled by Boolean
flags carried next to the row list.  Missing cell values (pandas NaN / NaT)
are modelled with `Option`.  Monetary quantities are rationals, order counts
are naturals, and parsed dates are integers (days), with `none` as the NaT
sentinel produced by coercing parse failures.

The script is a straight-line Streamlit program; each dashboard section is
embedded as a total function returning either a rendered value or the exact
warning string the script emits, so the absence of exceptions is reflected
by totality of the embedding.
-/

/-- One row of influencers.csv.  The script reads `platform`, `category` and a
display-name column (`username` preferred over `name`); the single `name`
field here is the value of whichever display-name column exists. -/
structure Influencer where
  influencer_id : String
  platform : String
  category : String
  name : String
  deriving DecidableEq, Repr

/-- One row of tracking_data.csv before date parsing: the date column is the
raw string read from the file. -/
structure RawTracking where
  influencer_id : String
  revenue : ℚ
  orders : ℕ
  rawDate : String
  deriving DecidableEq, Repr

/-- One row of tracking_data.csv after `pd.to_datetime(..., errors="coerce")`:
`date = none` is the NaT sentinel for an unparsable value. -/
structure Tracking where
  influencer_id : String
  revenue : ℚ
  orders : ℕ
  date : Option ℤ
  deriving DecidableEq, Repr

/-- One row of posts.csv: only `influencer_id` is used by the script; the
remaining platform-specific metadata is opaque. -/
structure Post where
  influencer_id : String
  meta : String
  deriving DecidableEq, Repr

/-- One row of payouts.csv. -/
structure Payout where
  influencer_id : String
  total_payout : ℚ
  status : String
  deriving DecidableEq, Repr

/-! ## Loader (dashboard.py lines 17-28) -/

/-- Outcome of one `pd.read_csv(path)` call: success, a FileNotFoundError, or
any other exception whose `str(e)` is `msg`. -/
inductive ReadResult (α : Type) where
  | ok (t : α)
  | notFound
  | parseError (msg : String)
  deriving DecidableEq, Repr

/-- The 5-tuple returned by `load_data`: four optional tables and an optional
error message. -/
structure LoadResult (α : Type) where
  influencers : Option α
  posts : Option α
  tracking : Option α
  payouts : Option α
  error : Option String
  deriving DecidableEq, Repr

/-- The four fixed input file names, in the order `load_data` reads them. -/
def data_files : List String :=
  ["influencers.csv", "posts.csv", "tracking_data.csv", "payouts.csv"]

/-- `load_data` (lines 18-28): reads the four files in order inside one
`try`.  The first raising read aborts the block; a FileNotFoundError yields
`"File not found: " ++ e.filename` and any other exception yields
`"Error loading data: " ++ str(e)`.  On success all four tables are returned
with no error; on failure all four table slots are `None`. -/
def load_data {α : Type} (fs : String → ReadResult α) : LoadResult α :=
  match fs "influencers.csv" with
  | .notFound => ⟨none, none, none, none, some ("File not found: " ++ "influencers.csv")⟩
  | .parseError m => ⟨none, none, none, none, some ("Error loading data: " ++ m)⟩
  | .ok a =>
    match fs "posts.csv" with
    | .notFound => ⟨none, none, none, none, some ("File not found: " ++ "posts.csv")⟩
    | .parseError m => ⟨none, none, none, none, some ("Error loading data: " ++ m)⟩
    | .ok b =>
      match fs "tracking_data.csv" with
      | .notFound => ⟨none, none, none, none, some ("File not found: " ++ "tracking_data.csv")⟩
      | .parseError m => ⟨none, none, none, none, some ("Error loading data: " ++ m)⟩
      | .ok c =>
        match fs "payouts.csv" with
        | .notFound => ⟨none, none, none, none, some ("File not found: " ++ "payouts.csv")⟩
        | .parseError m => ⟨none, none, none, none, some ("Error loading data: " ++ m)⟩
        | .ok d => ⟨some a, some b, some c, some d, none⟩

/-! ## Filter engine (dashboard.py lines 80-91) -/

/-- The filter application: `filtered_influencers` starts as a copy of the
influencer table; the platform predicate is applied only when the selection
list is truthy (non-empty) and the `platform` column exists, and likewise for
`category`.  `isin` is list membership. -/
def filtered_influencers (influencers : List Influencer)
    (hasPlatformCol hasCategoryCol : Bool)
    (platform_filter category_filter : List String) : List Influencer :=
  let f1 :=
    if platform_filter ≠ [] ∧ hasPlatformCol = true then
      influencers.filter (fun i => platform_filter.contains i.platform)
    else influencers
  if category_filter ≠ [] ∧ hasCategoryCol = true then
    f1.filter (fun i => category_filter.contains i.category)
  else f1

/-! ## Date widget (dashboard.py lines 69-78) -/

/-- `pd.to_datetime(tracking[date_col], errors="coerce")`: every raw date
string is parsed; unparsable values become the NaT sentinel `none`.  The
parser itself is an abstract parameter. -/
def to_datetime_coerce (parse : String → Option ℤ) (rows : List RawTracking) : List Tracking :=
  rows.map (fun r => ⟨r.influencer_id, r.revenue, r.orders, parse r.rawDate⟩)

/-- `tracking[date_col].min()`: minimum over non-NaT dates (NaT is skipped);
NaT when no dates exist. -/
def date_min (rows : List Tracking) : Option ℤ :=
  (rows.filterMap (·.date)).min?

/-- `tracking[date_col].max()`: maximum over non-NaT dates. -/
def date_max (rows : List Tracking) : Option ℤ :=
  (rows.filterMap (·.date)).max?

/-- The `st.date_input` widget state (lines 73-78): default value and the
selectable bounds, all clamped to the observed data range.  The value the
user picks inside these bounds is stored in `date_range` by the script but
is never consumed by any later statement. -/
structure DateWidget where
  value : Option ℤ × Option ℤ
  min_value : Option ℤ
  max_value : Option ℤ
  deriving DecidableEq, Repr

/-- The date-range widget as constructed at lines 73-78. -/
def date_range_widget (rows : List Tracking) : DateWidget :=
  ⟨(date_min rows, date_max rows), date_min rows, date_max rows⟩

/-! ## Join (dashboard.py lines 146-159) -/

/-- Row of `tracking.merge(influencers, on="influencer_id", how="left")`:
the tracking fields plus the matched influencer row, or `none` (all
influencer-side fields NaN) when unmatched. -/
structure MergedTI where
  t : Tracking
  inf : Option Influencer
  deriving DecidableEq, Repr

/-- Row of the full merged table after the optional second left join with
posts. -/
structure MergedRow where
  t : Tracking
  inf : Option Influencer
  post : Option Post
  deriving DecidableEq, Repr

/-- The rows a single tracking row contributes to the left join with the
influencer table: its matches, or one row with null influencer fields. -/
def join_influencer_one (influencers : List Influencer) (tr : Tracking) : List MergedTI :=
  match influencers.filter (fun i => i.influencer_id == tr.influencer_id) with
  | [] => [⟨tr, none⟩]
  | ms => ms.map (fun i => ⟨tr, some i⟩)

/-- Left join tracking → influencers on `influencer_id`: every tracking row
is kept; a row with k ≥ 1 matches fans out to k rows, a row with no match
produces one row with null influencer fields. -/
def merge_tracking_influencers (tracking : List Tracking) (influencers : List Influencer) :
    List MergedTI :=
  tracking.flatMap (join_influencer_one influencers)

/-- The rows a single merged row contributes to the left join with the posts
table. -/
def join_post_one (posts : List Post) (r : MergedTI) : List MergedRow :=
  match posts.filter (fun p => p.influencer_id == r.t.influencer_id) with
  | [] => [⟨r.t, r.inf, none⟩]
  | ps => ps.map (fun p => ⟨r.t, r.inf, some p⟩)

/-- Second left join of the merged table with posts on `influencer_id`. -/
def merge_posts (m : List MergedTI) (posts : List Post) : List MergedRow :=
  m.flatMap (join_post_one posts)

/-- The `merged` table (lines 146-159): the posts join is only performed when
the posts table is non-empty (`if not posts.empty`); with an empty posts
table the post-side fields simply stay absent, modelled as `none`. -/
def merged (tracking : List Tracking) (influencers : List Influencer) (posts : List Post) :
    List MergedRow :=
  if posts.isEmpty then
    (merge_tracking_influencers tracking influencers).map (fun r => ⟨r.t, r.inf, none⟩)
  else
    merge_posts (merge_tracking_influencers tracking influencers) posts

/-! ## Cost and ROAS derivation (dashboard.py lines 162-169) -/

/-- `merged["cost"] = merged["orders"] * 100` (cost per order hard-coded
as 100). -/
def cost (r : MergedRow) : ℚ :=
  (r.t.orders : ℚ) * 100

/-- `merged["ROAS"] = np.where(merged["cost"] > 0, revenue / cost, 0)`. -/
def ROAS (r : MergedRow) : ℚ :=
  if cost r > 0 then r.t.revenue / cost r else 0

/-! ## Aggregation (dashboard.py lines 172-231) -/

/-- Group keys of a pandas `groupby`: the distinct key values, sorted
ascending (groupby default `sort=True`). -/
def group_keys (ids : List String) : List String :=
  List.insertionSort (· ≤ ·) ids.dedup

/-- The rows of the merged table belonging to one group key. -/
def group_rows (rows : List MergedRow) (k : String) : List MergedRow :=
  rows.filter (fun r => r.t.influencer_id == k)

/-- One row of `roas_summary`: mean ROAS, summed revenue and summed orders
per influencer. -/
structure RoasRow where
  influencer_id : String
  ROAS : ℚ
  revenue : ℚ
  orders : ℕ
  deriving DecidableEq, Repr

/-- `merged.groupby("influencer_id").agg({ROAS: mean, revenue: sum,
orders: sum}).reset_index()`. -/
def roas_summary (rows : List MergedRow) : List RoasRow :=
  (group_keys (rows.map (·.t.influencer_id))).map (fun k =>
    let g := group_rows rows k
    ⟨k, (g.map ROAS).sum / (g.length : ℚ),
      (g.map (·.t.revenue)).sum, (g.map (·.t.orders)).sum⟩)

/-- The rows of the tracking table belonging to one group key. -/
def tracking_group (rows : List Tracking) (k : String) : List Tracking :=
  rows.filter (fun r => r.influencer_id == k)

/-- One row of `campaign_summary`: summed orders and revenue per
influencer. -/
structure CampaignRow where
  influencer_id : String
  orders : ℕ
  revenue : ℚ
  deriving DecidableEq, Repr

/-- `tracking.groupby("influencer_id").agg({orders: sum, revenue:
sum}).reset_index()` (lines 217-220). -/
def campaign_summary (rows : List Tracking) : List CampaignRow :=
  (group_keys (rows.map (·.influencer_id))).map (fun k =>
    let g := tracking_group rows k
    ⟨k, (g.map (·.orders)).sum, (g.map (·.revenue)).sum⟩)

/-- `roas_summary` row after the display-name merge; `name = none` models an
absent or NaN name value. -/
structure NamedRoasRow where
  influencer_id : String
  ROAS : ℚ
  revenue : ℚ
  orders : ℕ
  name : Option String
  deriving DecidableEq, Repr

/-- `campaign_summary` row after the display-name merge. -/
structure NamedCampaignRow where
  influencer_id : String
  orders : ℕ
  revenue : ℚ
  name : Option String
  deriving DecidableEq, Repr

/-- Name merge of the ROAS summary (lines 182-185):
`roas_summary.merge(influencers[["influencer_id", name_col]],
on="influencer_id")` — no `how` argument, so the pandas default inner join:
summary rows without a matching influencer are dropped, matching rows fan
out. -/
def roas_named (summ : List RoasRow) (influencers : List Influencer) : List NamedRoasRow :=
  summ.flatMap (fun s =>
    (influencers.filter (fun i => i.influencer_id == s.influencer_id)).map
      (fun i => ⟨s.influencer_id, s.ROAS, s.revenue, s.orders, some i.name⟩))

/-- The rows one campaign-summary row contributes to the left name merge. -/
def name_campaign_one (influencers : List Influencer) (s : CampaignRow) :
    List NamedCampaignRow :=
  match influencers.filter (fun i => i.influencer_id == s.influencer_id) with
  | [] => [⟨s.influencer_id, s.orders, s.revenue, none⟩]
  | ms => ms.map (fun i => ⟨s.influencer_id, s.orders, s.revenue, some i.name⟩)

/-- Name merge of the campaign summary (lines 225-229): same merge but with
`how="left"`, so unmatched summary rows are kept with a null name. -/
def campaign_named (summ : List CampaignRow) (influencers : List Influencer) :
    List NamedCampaignRow :=
  summ.flatMap (name_campaign_one influencers)

/-! ## Dashboard sections -/

/-- Outcome of one dashboard section: either the `st.warning` message the
script shows, or the rendered content. -/
inductive SectionOutcome (α : Type) where
  | warn (msg : String)
  | render (v : α)
  deriving DecidableEq, Repr

/-- The tracking table together with presence of its `revenue` and `orders`
columns (the script tests `"revenue" in ... .columns`). -/
structure TrackingTable where
  hasRevenueCol : Bool
  hasOrdersCol : Bool
  rows : List Tracking
  deriving DecidableEq, Repr

/-- `roas_summary.sort_values(by="ROAS", ascending=False)` (line 187),
modelled as a descending-by-ROAS sort.  The source uses the pandas default
quicksort, so the relative order of tied rows is left unspecified there;
every property proved below about the sorted output is invariant under
permutation of ties. -/
def sort_by_roas_desc (rows : List NamedRoasRow) : List NamedRoasRow :=
  List.insertionSort (fun a b => b.ROAS ≤ a.ROAS) rows

/-- `campaign_summary.sort_values(by="revenue", ascending=False)`
(line 231). -/
def sort_by_revenue_desc (rows : List NamedCampaignRow) : List NamedCampaignRow :=
  List.insertionSort (fun a b => b.revenue ≤ a.revenue) rows

/-- The performance-analysis section (lines 146-211): guard on the presence
of `revenue` and `orders` in the merged table, derive cost and ROAS, guard
on `merged` being non-empty, aggregate, attach names (inner join) when a
display-name column exists, sort descending by ROAS.  The two `else`
branches are the exact `st.warning` messages of lines 206 and 208. -/
def roas_section (tt : TrackingTable) (influencers : List Influencer) (posts : List Post)
    (hasNameCol : Bool) : SectionOutcome (List NamedRoasRow) :=
  if tt.hasRevenueCol = true ∧ tt.hasOrdersCol = true then
    let m := merged tt.rows influencers posts
    if m.isEmpty then SectionOutcome.warn "No data available for ROAS calculation"
    else
      let summ := roas_summary m
      let named :=
        if hasNameCol then roas_named summ influencers
        else summ.map (fun s => ⟨s.influencer_id, s.ROAS, s.revenue, s.orders, none⟩)
      SectionOutcome.render (sort_by_roas_desc named)
  else SectionOutcome.warn "Revenue or orders data not available for ROAS calculation"

/-- The revenue-and-orders section (lines 216-258): guard on the presence of
`revenue` and `orders` in the tracking table, aggregate, attach names with a
left join when a display-name column exists, sort descending by revenue.
The `else` branch is the `st.warning` of line 258.  An empty summary still
renders (as an empty table). -/
def campaign_section (tt : TrackingTable) (influencers : List Influencer)
    (hasNameCol : Bool) : SectionOutcome (List NamedCampaignRow) :=
  if tt.hasRevenueCol = true ∧ tt.hasOrdersCol = true then
    let summ := campaign_summary tt.rows
    let named :=
      if hasNameCol then campaign_named summ influencers
      else summ.map (fun s => ⟨s.influencer_id, s.orders, s.revenue, none⟩)
    SectionOutcome.render (sort_by_revenue_desc named)
  else SectionOutcome.warn "Revenue or orders data not available"

/-! ## Payout section (dashboard.py lines 263-289) -/

/-- `payouts[payouts["status"] == "pending"]["total_payout"].sum()`: exact,
case-sensitive string match. -/
def pending_amount (payouts : List Payout) : ℚ :=
  ((payouts.filter (fun p => p.status == "pending")).map (·.total_payout)).sum

/-- `payouts[payouts["status"] == "paid"]["total_payout"].sum()`. -/
def paid_amount (payouts : List Payout) : ℚ :=
  ((payouts.filter (fun p => p.status == "paid")).map (·.total_payout)).sum

/-- The payout table with presence of its `status` column. -/
structure PayoutTable where
  hasStatusCol : Bool
  rows : List Payout
  deriving DecidableEq, Repr

/-- Rendered payout section: the table sorted descending by `total_payout`,
plus the (pending, paid) metric pair when the `status` column exists. -/
structure PayoutView where
  payout_summary : List Payout
  status_totals : Option (ℚ × ℚ)
  deriving DecidableEq, Repr

/-- The payout-tracking section (lines 263-289): warn when the payout table
is empty, otherwise sort descending by `total_payout` and, when a `status`
column exists, compute the pending and paid totals. -/
def payout_section (pt : PayoutTable) : SectionOutcome PayoutView :=
  if pt.rows.isEmpty then SectionOutcome.warn "No payout data available"
  else
    SectionOutcome.render
      ⟨List.insertionSort (fun a b => b.total_payout ≤ a.total_payout) pt.rows,
        if pt.hasStatusCol then some (pending_amount pt.rows, paid_amount pt.rows) else none⟩

/-- All data-bearing sections of one render pass. -/
structure Dashboard where
  roas : SectionOutcome (List NamedRoasRow)
  campaign : SectionOutcome (List NamedCampaignRow)
  payout : SectionOutcome PayoutView

/-- One full render: each section is computed independently; the embedding is
a total function, reflecting that a missing optional column produces a
warning in its own section and never aborts the others. -/
def dashboard (tt : TrackingTable) (influencers : List Influencer) (posts : List Post)
    (pt : PayoutTable) (hasNameCol : Bool) : Dashboard :=
  ⟨roas_section tt influencers posts hasNameCol,
    campaign_section tt influencers hasNameCol,
    payout_section pt⟩

/-! ## Concrete sample data used by the scenario theorems and witnesses -/

/-- The two tracking rows of the ROAS scenario. -/
def c1_tracking : List Tracking :=
  [⟨"inf1", 500, 5, none⟩, ⟨"inf1", 300, 0, none⟩]

/-- A one-row influencer table. -/
def c2_influencers : List Influencer :=
  [⟨"i1", "Instagram", "Fitness", "A"⟩]

/-- Date parser fixing two parsable date strings; everything else is
unparsable. -/
def c3_parse : String → Option ℤ := fun s =>
  if s = "2024-01-01" then some 0 else if s = "2024-04-10" then some 100 else none

/-- Raw tracking rows: two parsable dates 100 days apart and one unparsable
date. -/
def c3_raw : List RawTracking :=
  [⟨"a", 10, 1, "2024-01-01"⟩, ⟨"b", 20, 2, "2024-04-10"⟩, ⟨"c", 30, 3, "not a date"⟩]

/-- The parsed tracking table of the date scenario. -/
def c3_tracking : List Tracking :=
  to_datetime_coerce c3_parse c3_raw

/-- A tracking row whose influencer has no row in the influencer table. -/
def c4_tracking : List Tracking :=
  [⟨"a", 1, 1, none⟩]

/-- An influencer table not containing influencer "a". -/
def c4_influencers : List Influencer :=
  [⟨"b", "YouTube", "Nutrition", "B"⟩]

/-- The payout scenario rows: exact-case "pending", exact-case "paid", and a
differently cased "Paid". -/
def c6_payouts : List Payout :=
  [⟨"i1", 1000, "pending"⟩, ⟨"i2", 2000, "paid"⟩, ⟨"i3", 500, "Paid"⟩]

/-- A non-empty payout table for the empty-tracking scenario. -/
def c7_pt : PayoutTable :=
  ⟨true, [⟨"i1", 7, "paid"⟩]⟩

/-- An empty tracking table that still has its revenue and orders columns. -/
def c7_tt : TrackingTable :=
  ⟨true, true, []⟩

/-- A file system in which only tracking_data.csv is malformed; its
underlying pandas message does not mention the file name. -/
def c8_fs : String → ReadResult Nat := fun nm =>
  if nm = "tracking_data.csv" then ReadResult.parseError "Error tokenizing data" else ReadResult.ok 0

/-- A file system in which every file loads. -/
def c8_ok_fs : String → ReadResult Nat := fun _ => ReadResult.ok 0

/-- A tracking table whose single influencer "x" is absent from the
influencer table. -/
def c10_tt : TrackingTable :=
  ⟨true, true, [⟨"x", 10, 1, none⟩]⟩

/-! ## Shared lemmas -/

/-- A group key belongs to `group_keys ids` exactly when it occurs in
`ids`. -/
theorem mem_group_keys (ids : List String) (k : String) :
    k ∈ group_keys ids ↔ k ∈ ids := by
  simp [group_keys, List.mem_insertionSort, List.mem_dedup]

/-- One tracking row always contributes at least one joined row. -/
theorem join_influencer_one_ne_nil (influencers : List Influencer) (tr : Tracking) :
    join_influencer_one influencers tr ≠ [] := by
  cases h : influencers.filter (fun i => i.influencer_id == tr.influencer_id) with
  | nil => simp [join_influencer_one, h]
  | cons x xs => simp [join_influencer_one, h]

/-- Every row produced from one tracking row carries that tracking row, and
its influencer side is either null or an actual match. -/
theorem mem_join_influencer_one (influencers : List Influencer) (tr : Tracking) (r : MergedTI)
    (hr : r ∈ join_influencer_one influencers tr) :
    r.t = tr ∧ (r.inf = none ∨
      ∃ i, r.inf = some i ∧ i ∈ influencers ∧ i.influencer_id = tr.influencer_id) := by
  cases h : influencers.filter (fun i => i.influencer_id == tr.influencer_id) with
  | nil =>
    simp only [join_influencer_one, h, List.mem_singleton] at hr
    subst hr
    exact ⟨rfl, Or.inl rfl⟩
  | cons x xs =>
    simp only [join_influencer_one, h, List.mem_map] at hr
    obtain ⟨i, hi, rfl⟩ := hr
    have hif : i ∈ influencers.filter (fun i => i.influencer_id == tr.influencer_id) := by
      rw [h]; exact hi
    have hmem := List.mem_filter.mp hif
    exact ⟨rfl, Or.inr ⟨i, rfl, hmem.1, by simpa using hmem.2⟩⟩

/-- One merged row always contributes at least one row to the posts join. -/
theorem join_post_one_ne_nil (posts : List Post) (r : MergedTI) :
    join_post_one posts r ≠ [] := by
  cases h : posts.filter (fun p => p.influencer_id == r.t.influencer_id) with
  | nil => simp [join_post_one, h]
  | cons x xs => simp [join_post_one, h]

/-- The posts join preserves the tracking and influencer sides of each
row. -/
theorem mem_join_post_one (posts : List Post) (s : MergedTI) (r : MergedRow)
    (hr : r ∈ join_post_one posts s) : r.t = s.t ∧ r.inf = s.inf := by
  cases h : posts.filter (fun p => p.influencer_id == s.t.influencer_id) with
  | nil =>
    simp only [join_post_one, h, List.mem_singleton] at hr
    subst hr
    exact ⟨rfl, rfl⟩
  | cons x xs =>
    simp only [join_post_one, h, List.mem_map] at hr
    obtain ⟨p, hp, rfl⟩ := hr
    exact ⟨rfl, rfl⟩

/-- The first left join never loses tracking rows. -/
theorem length_le_merge_tracking_influencers (tracking : List Tracking)
    (influencers : List Influencer) :
    tracking.length ≤ (merge_tracking_influencers tracking influencers).length := by
  induction tracking with
  | nil => simp [merge_tracking_influencers]
  | cons tr rest ih =>
    have h1 : 1 ≤ (join_influencer_one influencers tr).length := by
      cases h : join_influencer_one influencers tr with
      | nil => exact absurd h (join_influencer_one_ne_nil _ _)
      | cons x xs => simp
    have : merge_tracking_influencers (tr :: rest) influencers =
        join_influencer_one influencers tr ++ merge_tracking_influencers rest influencers := by
      simp [merge_tracking_influencers]
    rw [this, List.length_append, List.length_cons]
    omega

/-- The posts join never loses rows either. -/
theorem length_le_merge_posts (m : List MergedTI) (posts : List Post) :
    m.length ≤ (merge_posts m posts).length := by
  induction m with
  | nil => simp [merge_posts]
  | cons s rest ih =>
    have h1 : 1 ≤ (join_post_one posts s).length := by
      cases h : join_post_one posts s with
      | nil => exact absurd h (join_post_one_ne_nil _ _)
      | cons x xs => simp
    have : merge_posts (s :: rest) posts = join_post_one posts s ++ merge_posts rest posts := by
      simp [merge_posts]
    rw [this, List.length_append, List.length_cons]
    omega

/-- The full merge never loses tracking rows. -/
theorem length_le_merged (tracking : List Tracking) (influencers : List Influencer)
    (posts : List Post) :
    tracking.length ≤ (merged tracking influencers posts).length := by
  unfold merged
  split
  · rw [List.length_map]
    exact length_le_merge_tracking_influencers tracking influencers
  · exact le_trans (length_le_merge_tracking_influencers tracking influencers)
      (length_le_merge_posts _ posts)

/-- Every merged row descends from a row of the first join with the same
tracking and influencer sides. -/
theorem mem_merged_src (tracking : List Tracking) (influencers : List Influencer)
    (posts : List Post) (r : MergedRow) (hr : r ∈ merged tracking influencers posts) :
    ∃ s ∈ merge_tracking_influencers tracking influencers, r.t = s.t ∧ r.inf = s.inf := by
  unfold merged at hr
  split at hr
  · obtain ⟨s, hs, rfl⟩ := List.mem_map.mp hr
    exact ⟨s, hs, rfl, rfl⟩
  · simp only [merge_posts, List.mem_flatMap] at hr
    obtain ⟨s, hs, hmem⟩ := hr
    exact ⟨s, hs, mem_join_post_one _ _ _ hmem⟩

/-- An empty tracking table merges to an empty table. -/
theorem merged_nil (influencers : List Influencer) (posts : List Post) :
    merged [] influencers posts = [] := by
  unfold merged
  split <;> simp [merge_tracking_influencers, merge_posts]

/-! ## Claim theorems -/

/-- C1: for every joined row, the derived cost is `orders * 100`, ROAS is
`revenue / cost` when `cost > 0` and `0` when `cost = 0`; on the scenario
table `{inf1, revenue=500, orders=5}`, `{inf1, revenue=300, orders=0}` the
per-row costs are 500 and 0, the per-row ROAS values are 1 and 0, and the
grouped summary for inf1 has mean ROAS 1/2, summed revenue 800 and summed
orders 5. -/
theorem c1_cost_roas_derivation (r : MergedRow) :
    cost r = (r.t.orders : ℚ) * 100 ∧
    (0 < cost r → ROAS r = r.t.revenue / cost r) ∧
    (cost r = 0 → ROAS r = 0) ∧
    (merged c1_tracking [] []).map cost = [500, 0] ∧
    (merged c1_tracking [] []).map ROAS = [1, 0] ∧
    roas_summary (merged c1_tracking [] []) = [⟨"inf1", 1/2, 800, 5⟩] := by
  have hm : merged c1_tracking [] [] =
      [⟨⟨"inf1", 500, 5, none⟩, none, none⟩, ⟨⟨"inf1", 300, 0, none⟩, none, none⟩] := by
    simp [merged, merge_tracking_influencers, join_influencer_one, c1_tracking]
  have hr1 : ROAS ⟨⟨"inf1", 500, 5, none⟩, none, none⟩ = 1 := by
    unfold ROAS
    rw [if_pos (by norm_num [cost])]
    norm_num [cost]
  have hr2 : ROAS ⟨⟨"inf1", 300, 0, none⟩, none, none⟩ = 0 := by
    unfold ROAS
    rw [if_neg (by norm_num [cost])]
  have hk : group_keys
      (([⟨⟨"inf1", 500, 5, none⟩, none, none⟩,
         ⟨⟨"inf1", 300, 0, none⟩, none, none⟩] : List MergedRow).map (·.t.influencer_id)) =
      ["inf1"] := by
    simp [group_keys, List.insertionSort, List.orderedInsert]
  refine ⟨rfl, ?_, ?_, ?_, ?_, ?_⟩
  · intro h
    unfold ROAS
    rw [if_pos h]
  · intro h
    unfold ROAS
    rw [if_neg (by rw [h]; exact lt_irrefl 0)]
  · rw [hm]
    norm_num [cost]
  · rw [hm, List.map_cons, List.map_cons, List.map_nil, hr1, hr2]
  · rw [hm]
    unfold roas_summary
    rw [hk]
    simp [group_rows, hr1, hr2]
    norm_num

/-- Witness for C1: the two ROAS branch hypotheses discharged on the concrete
scenario rows. -/
theorem c1_witness :
    ROAS ⟨⟨"inf1", 500, 5, none⟩, none, none⟩ =
      (⟨⟨"inf1", 500, 5, none⟩, none, none⟩ : MergedRow).t.revenue /
        cost ⟨⟨"inf1", 500, 5, none⟩, none, none⟩ ∧
    ROAS ⟨⟨"inf1", 300, 0, none⟩, none, none⟩ = 0 :=
  ⟨(c1_cost_roas_derivation _).2.1 (by norm_num [cost]),
    (c1_cost_roas_derivation _).2.2.1 (by norm_num [cost])⟩

/-- C2 counterexample: with both filter columns present and an empty
selection in both multiselects, the code removes nothing, while the claimed
exact characterization (platform and category both in the selected sets)
would leave no rows. -/
theorem c2_counterexample :
    ¬ (filtered_influencers c2_influencers true true [] [] =
        c2_influencers.filter (fun i =>
          (([] : List String).contains i.platform) &&
          (([] : List String).contains i.category))) := by
  decide

/-- C2 (amended): the filtered influencer set is always a subset of the full
set, and whenever both selection lists are non-empty it is exactly the rows
whose platform and category are both selected. -/
theorem c2_filter_characterization (influencers : List Influencer) (pf cf : List String) :
    (∀ i, i ∈ filtered_influencers influencers true true pf cf → i ∈ influencers) ∧
    (pf ≠ [] → cf ≠ [] →
      filtered_influencers influencers true true pf cf =
        influencers.filter (fun i => pf.contains i.platform && cf.contains i.category)) := by
  constructor
  · intro i hi
    simp only [filtered_influencers] at hi
    split_ifs at hi <;> simp_all [List.mem_filter]
  · intro hpf hcf
    simp only [filtered_influencers]
    rw [if_pos ⟨hcf, trivial⟩, if_pos ⟨hpf, trivial⟩, List.filter_filter]
    refine List.filter_congr ?_
    intro a _
    exact Bool.and_comm _ _

/-- Witness for C2: the exact characterization instantiated on a concrete
table and non-empty selections. -/
theorem c2_witness :
    ((⟨"i1", "Instagram", "Fitness", "A"⟩ : Influencer) ∈ c2_influencers) ∧
    filtered_influencers c2_influencers true true ["Instagram"] ["Fitness"] =
      c2_influencers.filter (fun i =>
        (["Instagram"] : List String).contains i.platform &&
        (["Fitness"] : List String).contains i.category) :=
  ⟨(c2_filter_characterization c2_influencers ["Instagram"] ["Fitness"]).1 _ (by decide),
    (c2_filter_characterization c2_influencers ["Instagram"] ["Fitness"]).2
      (by decide) (by decide)⟩

/-- C3 (code bug): date handling as the script performs it.  Unparsable
dates are coerced to the NaT sentinel and the widget bounds are clamped to
the observed [min, max], but the selected date range is never applied: with
rows dated day 0 and day 100 plus one unparsable date, and a user-selected
sub-range such as [0, 10], the downstream merged table still contains all
three rows, including the one dated 100 and the one with no date. -/
theorem c3_date_range_never_applied :
    c3_tracking.map (·.date) = [some 0, some 100, none] ∧
    date_range_widget c3_tracking = ⟨(some 0, some 100), some 0, some 100⟩ ∧
    (merged c3_tracking [] []).map (fun r => r.t.influencer_id) = ["a", "b", "c"] ∧
    (merged c3_tracking [] []).map (fun r => r.t.date) = [some 0, some 100, none] := by
  refine ⟨by decide, by decide, ?_, ?_⟩ <;>
    simp [merged, merge_tracking_influencers, join_influencer_one, c3_tracking,
      to_datetime_coerce, c3_raw, c3_parse]

/-- C4: the pipeline join keeps every tracking row (row count never
decreases) and a joined row whose influencer_id has no match in the
influencer table has null influencer-side fields. -/
theorem c4_left_join_preserves_tracking (tracking : List Tracking)
    (influencers : List Influencer) (posts : List Post) :
    tracking.length ≤ (merged tracking influencers posts).length ∧
    ∀ r ∈ merged tracking influencers posts,
      r.t.influencer_id ∉ influencers.map (·.influencer_id) → r.inf = none := by
  refine ⟨length_le_merged tracking influencers posts, ?_⟩
  intro r hr hmiss
  obtain ⟨s, hs, ht, hinf⟩ := mem_merged_src tracking influencers posts r hr
  simp only [merge_tracking_influencers, List.mem_flatMap] at hs
  obtain ⟨tr, htr, hmem⟩ := hs
  obtain ⟨hst, hcases⟩ := mem_join_influencer_one influencers tr s hmem
  rcases hcases with hnone | ⟨i, hsome, hiin, hid⟩
  · rw [hinf, hnone]
  · exfalso
    apply hmiss
    rw [List.mem_map]
    exact ⟨i, hiin, by rw [hid, ← hst, ← ht]⟩

/-- Witness for C4: a concrete unmatched tracking row whose merged row has a
null influencer side. -/
theorem c4_witness :
    (⟨⟨"a", 1, 1, none⟩, none, none⟩ : MergedRow).inf = none :=
  (c4_left_join_preserves_tracking c4_tracking c4_influencers []).2
    ⟨⟨"a", 1, 1, none⟩, none, none⟩
    (by simp [merged, merge_tracking_influencers, join_influencer_one, c4_tracking,
      c4_influencers])
    (by decide)

/-- C6: the pending and paid totals are exact, case-sensitive sums — a row
whose status is not literally `"pending"` (resp. `"paid"`) contributes
nothing to the corresponding total — and on the scenario payouts
{pending 1000, paid 2000, Paid 500} they are 1000 and 2000. -/
theorem c6_payout_status_sums :
    (∀ (p : Payout) (ps : List Payout), p.status ≠ "pending" →
      pending_amount (p :: ps) = pending_amount ps) ∧
    (∀ (p : Payout) (ps : List Payout), p.status ≠ "paid" →
      paid_amount (p :: ps) = paid_amount ps) ∧
    (∀ (p : Payout) (ps : List Payout), p.status = "pending" →
      pending_amount (p :: ps) = p.total_payout + pending_amount ps) ∧
    (∀ (p : Payout) (ps : List Payout), p.status = "paid" →
      paid_amount (p :: ps) = p.total_payout + paid_amount ps) ∧
    pending_amount c6_payouts = 1000 ∧
    paid_amount c6_payouts = 2000 := by
  refine ⟨?_, ?_, ?_, ?_, ?_, ?_⟩
  · intro p ps h
    simp [pending_amount, List.filter_cons, h]
  · intro p ps h
    simp [paid_amount, List.filter_cons, h]
  · intro p ps h
    simp [pending_amount, List.filter_cons, h]
  · intro p ps h
    simp [paid_amount, List.filter_cons, h]
  · simp [pending_amount, c6_payouts]
  · simp [paid_amount, c6_payouts]

/-- Witness for C6: the differently cased "Paid" row discharged against both
exclusion hypotheses, and the matching rows against the inclusion ones. -/
theorem c6_witness :
    pending_amount [⟨"i3", 500, "Paid"⟩] = pending_amount [] ∧
    paid_amount [⟨"i3", 500, "Paid"⟩] = paid_amount [] ∧
    pending_amount [⟨"i1", 1000, "pending"⟩] =
      (1000 : ℚ) + pending_amount [] ∧
    paid_amount [⟨"i2", 2000, "paid"⟩] = (2000 : ℚ) + paid_amount [] :=
  ⟨c6_payout_status_sums.1 ⟨"i3", 500, "Paid"⟩ [] (by decide),
    c6_payout_status_sums.2.1 ⟨"i3", 500, "Paid"⟩ [] (by decide),
    c6_payout_status_sums.2.2.1 ⟨"i1", 1000, "pending"⟩ [] (by decide),
    c6_payout_status_sums.2.2.2.1 ⟨"i2", 2000, "paid"⟩ [] (by decide)⟩

/-- Every row surviving the inner name merge of the ROAS summary has a
matching influencer row. -/
theorem roas_named_id_mem (summ : List RoasRow) (influencers : List Influencer)
    (r : NamedRoasRow) (hr : r ∈ roas_named summ influencers) :
    r.influencer_id ∈ influencers.map (·.influencer_id) := by
  simp only [roas_named, List.mem_flatMap, List.mem_map] at hr
  obtain ⟨s, hs, i, hi, rfl⟩ := hr
  have hmem := List.mem_filter.mp hi
  rw [List.mem_map]
  exact ⟨i, hmem.1, by simpa using hmem.2⟩

/-- Every influencer_id occurring in the tracking rows owns a
campaign-summary row. -/
theorem campaign_summary_mem_id (rows : List Tracking) (tid : String)
    (h : tid ∈ rows.map (·.influencer_id)) :
    ∃ s ∈ campaign_summary rows, s.influencer_id = tid := by
  have hk : tid ∈ group_keys (rows.map (·.influencer_id)) :=
    (mem_group_keys _ _).mpr h
  exact ⟨_, List.mem_map_of_mem _ hk, rfl⟩

/-- A campaign-summary row with no matching influencer survives the left
name merge with a null name. -/
theorem campaign_named_unmatched (summ : List CampaignRow) (influencers : List Influencer)
    (s : CampaignRow) (hs : s ∈ summ)
    (h : s.influencer_id ∉ influencers.map (·.influencer_id)) :
    (⟨s.influencer_id, s.orders, s.revenue, none⟩ : NamedCampaignRow) ∈
      campaign_named summ influencers := by
  have hfil : influencers.filter (fun i => i.influencer_id == s.influencer_id) = [] := by
    rw [List.filter_eq_nil_iff]
    intro i hi hbeq
    exact h (List.mem_map.mpr ⟨i, hi, by simpa using hbeq⟩)
  simp only [campaign_named, List.mem_flatMap]
  exact ⟨s, hs, by simp [name_campaign_one, hfil]⟩

/-- C7: when the revenue or orders column is missing, the performance and
revenue/orders sections each degrade to a warning and the payout section is
unaffected; an empty tracking table (columns present) turns the ROAS section
into a warning while the revenue/orders section still renders and the payout
section is unaffected.  The embedding is a total function, so no exception
can interrupt the remaining sections. -/
theorem c7_missing_column_degrades (tt : TrackingTable) (influencers : List Influencer)
    (posts : List Post) (pt : PayoutTable) (hasNameCol : Bool) :
    (¬ (tt.hasRevenueCol = true ∧ tt.hasOrdersCol = true) →
      (∃ m, (dashboard tt influencers posts pt hasNameCol).roas = SectionOutcome.warn m) ∧
      (∃ m, (dashboard tt influencers posts pt hasNameCol).campaign = SectionOutcome.warn m) ∧
      (dashboard tt influencers posts pt hasNameCol).payout = payout_section pt) ∧
    (tt.rows = [] →
      (∃ m, (dashboard tt influencers posts pt hasNameCol).roas = SectionOutcome.warn m) ∧
      (tt.hasRevenueCol = true → tt.hasOrdersCol = true →
        ∃ out, (dashboard tt influencers posts pt hasNameCol).campaign =
          SectionOutcome.render out) ∧
      (dashboard tt influencers posts pt hasNameCol).payout = payout_section pt) := by
  constructor
  · intro h
    have hroas : roas_section tt influencers posts hasNameCol =
        SectionOutcome.warn "Revenue or orders data not available for ROAS calculation" := by
      unfold roas_section
      rw [if_neg h]
    have hcamp : campaign_section tt influencers hasNameCol =
        SectionOutcome.warn "Revenue or orders data not available" := by
      unfold campaign_section
      rw [if_neg h]
    exact ⟨⟨_, hroas⟩, ⟨_, hcamp⟩, rfl⟩
  · intro hrows
    refine ⟨?_, ?_, rfl⟩
    · show ∃ m, roas_section tt influencers posts hasNameCol = SectionOutcome.warn m
      unfold roas_section
      by_cases h : tt.hasRevenueCol = true ∧ tt.hasOrdersCol = true
      · rw [if_pos h]
        have hempty : (merged tt.rows influencers posts).isEmpty = true := by
          rw [hrows, merged_nil]
          rfl
        exact ⟨_, by simp only [hempty, if_pos]; rfl⟩
      · rw [if_neg h]
        exact ⟨_, rfl⟩
    · intro h1 h2
      show ∃ out, campaign_section tt influencers hasNameCol = SectionOutcome.render out
      unfold campaign_section
      rw [if_pos ⟨h1, h2⟩]
      exact ⟨_, rfl⟩

/-- Witness for C7: the empty-tracking scenario with both columns present —
the ROAS section warns, the revenue/orders section still renders, and the
payout section is computed as usual. -/
theorem c7_witness :
    (∃ m, (dashboard c7_tt [] [] c7_pt true).roas = SectionOutcome.warn m) ∧
    (∃ out, (dashboard c7_tt [] [] c7_pt true).campaign = SectionOutcome.render out) ∧
    (dashboard c7_tt [] [] c7_pt true).payout = payout_section c7_pt := by
  have h := (c7_missing_column_degrades c7_tt [] [] c7_pt true).2 rfl
  exact ⟨h.1, h.2.1 rfl rfl, h.2.2⟩

/-- C8 (amended): the loader is all-or-nothing — either every file reads and
all four tables are returned with no error, or a missing file yields only
the error `"File not found: <file>"` (naming the file), or a malformed file
yields only `"Error loading data: <underlying message>"`, which wraps the
underlying error but does not add the file name. -/
theorem c8_loader_all_or_nothing {α : Type} (fs : String → ReadResult α) :
    (∃ a b c d, fs "influencers.csv" = ReadResult.ok a ∧ fs "posts.csv" = ReadResult.ok b ∧
      fs "tracking_data.csv" = ReadResult.ok c ∧ fs "payouts.csv" = ReadResult.ok d ∧
      load_data fs = ⟨some a, some b, some c, some d, none⟩) ∨
    (∃ nm, nm ∈ data_files ∧ fs nm = ReadResult.notFound ∧
      load_data fs = ⟨none, none, none, none, some ("File not found: " ++ nm)⟩) ∨
    (∃ nm m, nm ∈ data_files ∧ fs nm = ReadResult.parseError m ∧
      load_data fs = ⟨none, none, none, none, some ("Error loading data: " ++ m)⟩) := by
  cases h1 : fs "influencers.csv" with
  | notFound =>
    exact Or.inr (Or.inl ⟨"influencers.csv", by simp [data_files], h1,
      by simp [load_data, h1]⟩)
  | parseError m =>
    exact Or.inr (Or.inr ⟨"influencers.csv", m, by simp [data_files], h1,
      by simp [load_data, h1]⟩)
  | ok a =>
    cases h2 : fs "posts.csv" with
    | notFound =>
      exact Or.inr (Or.inl ⟨"posts.csv", by simp [data_files], h2,
        by simp [load_data, h1, h2]⟩)
    | parseError m =>
      exact Or.inr (Or.inr ⟨"posts.csv", m, by simp [data_files], h2,
        by simp [load_data, h1, h2]⟩)
    | ok b =>
      cases h3 : fs "tracking_data.csv" with
      | notFound =>
        exact Or.inr (Or.inl ⟨"tracking_data.csv", by simp [data_files], h3,
          by simp [load_data, h1, h2, h3]⟩)
      | parseError m =>
        exact Or.inr (Or.inr ⟨"tracking_data.csv", m, by simp [data_files], h3,
          by simp [load_data, h1, h2, h3]⟩)
      | ok c =>
        cases h4 : fs "payouts.csv" with
        | notFound =>
          exact Or.inr (Or.inl ⟨"payouts.csv", by simp [data_files], h4,
            by simp [load_data, h1, h2, h3, h4]⟩)
        | parseError m =>
          exact Or.inr (Or.inr ⟨"payouts.csv", m, by simp [data_files], h4,
            by simp [load_data, h1, h2, h3, h4]⟩)
        | ok d =>
          exact Or.inl ⟨a, b, c, d, rfl, rfl, rfl, rfl, by simp [load_data, h1, h2, h3, h4]⟩

/-- C8 counterexample: a malformed tracking_data.csv with underlying message
"Error tokenizing data" produces the error string
"Error loading data: Error tokenizing data", in which the file name
tracking_data.csv does not occur — the ParseError does not name the file. -/
theorem c8_counterexample :
    load_data c8_fs =
      ⟨none, none, none, none, some "Error loading data: Error tokenizing data"⟩ ∧
    ¬ ("tracking_data.csv".toList <:+:
        ("Error loading data: Error tokenizing data").toList) := by
  constructor
  · decide
  · decide

/-- C9: an empty multiselect selection means no filtering — with both
selections empty the table passes through unchanged, and with one selection
empty any removed row was removed by the other column filter. -/
theorem c9_empty_selection_no_filter (influencers : List Influencer) (hp hc : Bool)
    (pf cf : List String) :
    filtered_influencers influencers hp hc [] [] = influencers ∧
    (∀ i, i ∈ influencers → i ∉ filtered_influencers influencers hp hc [] cf →
      hc = true ∧ cf ≠ [] ∧ cf.contains i.category = false) ∧
    (∀ i, i ∈ influencers → i ∉ filtered_influencers influencers hp hc pf [] →
      hp = true ∧ pf ≠ [] ∧ pf.contains i.platform = false) := by
  refine ⟨by simp [filtered_influencers], ?_, ?_⟩
  · intro i hi hni
    simp only [filtered_influencers] at hni
    have hinner : ¬(([] : List String) ≠ [] ∧ hp = true) := by simp
    rw [if_neg hinner] at hni
    by_cases h : cf ≠ [] ∧ hc = true
    · rw [if_pos h] at hni
      refine ⟨h.2, h.1, ?_⟩
      by_contra hcontains
      exact hni (List.mem_filter.mpr ⟨hi, by simpa using hcontains⟩)
    · rw [if_neg h] at hni
      exact absurd hi hni
  · intro i hi hni
    simp only [filtered_influencers] at hni
    have houter : ¬(([] : List String) ≠ [] ∧ hc = true) := by simp
    rw [if_neg houter] at hni
    by_cases h : pf ≠ [] ∧ hp = true
    · rw [if_pos h] at hni
      refine ⟨h.2, h.1, ?_⟩
      by_contra hcontains
      exact hni (List.mem_filter.mpr ⟨hi, by simpa using hcontains⟩)
    · rw [if_neg h] at hni
      exact absurd hi hni

/-- Witness for C9: a row filtered out by a non-empty platform selection
while the category selection is empty. -/
theorem c9_witness :
    true = true ∧ (["YouTube"] : List String) ≠ [] ∧
      (["YouTube"] : List String).contains "Instagram" = false :=
  (c9_empty_selection_no_filter c2_influencers true true ["YouTube"] ["Yoga"]).2.2
    ⟨"i1", "Instagram", "Fitness", "A"⟩ (by decide) (by decide)

/-- C10: with a display-name column present, the ROAS summary attaches names
with an inner join — an influencer_id tracked but absent from the influencer
table appears in no rendered ROAS row — while the revenue/orders summary
attaches names with a left join and keeps such an id with a null name. -/
theorem c10_name_merge_join_kinds (tt : TrackingTable) (influencers : List Influencer)
    (posts : List Post) (tid : String)
    (hmiss : tid ∉ influencers.map (·.influencer_id)) :
    (∀ out, roas_section tt influencers posts true = SectionOutcome.render out →
      ∀ r ∈ out, r.influencer_id ≠ tid) ∧
    (tid ∈ tt.rows.map (·.influencer_id) →
      ∀ out, campaign_section tt influencers true = SectionOutcome.render out →
        ∃ r ∈ out, r.influencer_id = tid ∧ r.name = none) := by
  constructor
  · intro out hout r hr
    unfold roas_section at hout
    by_cases h : tt.hasRevenueCol = true ∧ tt.hasOrdersCol = true
    · rw [if_pos h] at hout
      by_cases hemp : (merged tt.rows influencers posts).isEmpty = true
      · rw [if_pos hemp] at hout
        cases hout
      · rw [if_neg hemp] at hout
        simp only [if_pos] at hout
        injection hout with hpayload
        subst hpayload
        have hr2 : r ∈ roas_named (roas_summary (merged tt.rows influencers posts))
            influencers := by
          simpa [sort_by_roas_desc, List.mem_insertionSort] using hr
        intro hEq
        exact hmiss (hEq ▸ roas_named_id_mem _ _ _ hr2)
    · rw [if_neg h] at hout
      cases hout
  · intro htid out hout
    unfold campaign_section at hout
    by_cases h : tt.hasRevenueCol = true ∧ tt.hasOrdersCol = true
    · rw [if_pos h] at hout
      simp only [if_pos] at hout
      injection hout with hpayload
      subst hpayload
      obtain ⟨s, hs, hsid⟩ := campaign_summary_mem_id tt.rows tid htid
      have hrow := campaign_named_unmatched (campaign_summary tt.rows) influencers s hs
        (by rw [hsid]; exact hmiss)
      refine ⟨⟨s.influencer_id, s.orders, s.revenue, none⟩, ?_, hsid, rfl⟩
      simpa [sort_by_revenue_desc, List.mem_insertionSort] using hrow
    · rw [if_neg h] at hout
      cases hout

/-- Witness for C10: influencer "x" is tracked but unknown; the rendered
revenue/orders summary keeps it with a null name. -/
theorem c10_witness :
    ∃ r ∈ ([⟨"x", 1, 10, none⟩] : List NamedCampaignRow),
      r.influencer_id = "x" ∧ r.name = none :=
  (c10_name_merge_join_kinds c10_tt [] [] "x" (by decide)).2 (by decide) _
    (by simp [campaign_section, campaign_summary, campaign_named, name_campaign_one,
      group_keys, tracking_group, sort_by_revenue_desc, c10_tt,
      List.insertionSort, List.orderedInsert])
